import Mathlib

/-!
Verification of the Trino Flask analytics app (`src/app.py`) against its
natural-language specification.

The development shallow-embeds the parts of `app.py` that the claims are
about:

* the bounded-concurrency gate `_gate = threading.BoundedSemaphore(N)` used
  by `run_query`, modelled as a labelled transition system over the
  semaphore counter and the number of callers inside the protected section;
* the TTL cache `cache_ttl(key, ttl, fn)` over the module-level `_cache`
  dict, modelled as a function from keys to optional `(timestamp, value)`
  entries, with an explicit fn-invocation count and explicit
  state-threading for suppliers that themselves mutate the metric caches;
* the metric computations and route handlers, modelled as pure functions of
  an abstract executor outcome (`World`), the request time, and the cache
  state.  The Trino engine is opaque: each generated statement's outcome is
  a field of `World` (rows already well-typed, as the code assumes when it
  applies `float`/`int` to row cells).  Python floats are modelled as `ℚ`.
-/

namespace TrinoApp

/-! ### Configuration defaults (module-level constants of `app.py`) -/

/-- Default of `TRINO_MAX_CONCURRENCY = int(os.getenv("TRINO_MAX_CONCURRENCY", "2"))`. -/
def TRINO_MAX_CONCURRENCY : Nat := 2

/-- Default of `DASHBOARD_CACHE_TTL = int(os.getenv("DASHBOARD_CACHE_TTL", "60"))`. -/
def DASHBOARD_CACHE_TTL : ℚ := 60

/-- Default of `SMALL_CACHE_TTL = int(os.getenv("SMALL_CACHE_TTL", "60"))`. -/
def SMALL_CACHE_TTL : ℚ := 60

/-- Default of `MYSQL_SCHEMA = os.getenv("MYSQL_SCHEMA", "crm_1")`. -/
def MYSQL_SCHEMA : String := "crm_1"

/-! ### The concurrency gate (`_gate = threading.BoundedSemaphore(value=N)`)

`run_query` wraps every downstream call in `with _gate:`.  We model the
process state as the semaphore's internal counter together with the number
of callers currently inside the protected section.  `acquire` (entering the
`with` block) blocks while the counter is `0` and otherwise decrements it;
`release` (leaving the block) is performed by a caller inside the section
and increments the counter.  Every interleaving of `run_query` calls is a
path of this transition system. -/

structure GateState where
  counter : Nat
  inside : Nat
  deriving DecidableEq, Repr

/-- Initial state of the gate at process start: the semaphore counter holds
the full capacity and nobody is inside the protected section. -/
def gateInit (n : Nat) : GateState := ⟨n, 0⟩

/-- One step of the system: a caller enters the protected section
(semaphore `acquire`: only enabled when the counter is positive), or a
caller inside the section leaves it (semaphore `release`). -/
inductive GateStep : GateState → GateState → Prop
  | acquire (c i : Nat) : GateStep ⟨c + 1, i⟩ ⟨c, i + 1⟩
  | release (c i : Nat) : GateStep ⟨c, i + 1⟩ ⟨c + 1, i⟩

/-- Reachability from the initial state under any interleaving. -/
inductive GateReachable (n : Nat) : GateState → Prop
  | init : GateReachable n (gateInit n)
  | step {s s' : GateState} : GateReachable n s → GateStep s s' → GateReachable n s'

/-- Auxiliary invariant: the semaphore counter plus the number of callers
inside the protected section is constantly the configured capacity. -/
theorem gate_counter_inside (n : Nat) (s : GateState)
    (h : GateReachable n s) : s.counter + s.inside = n := by
  induction h with
  | init => simp [gateInit]
  | step _ hstep ih =>
    cases hstep with
    | acquire c i =>
      have h' : c + 1 + i = n := ih
      show c + (i + 1) = n
      omega
    | release c i =>
      have h' : c + (i + 1) = n := ih
      show c + 1 + i = n
      omega

/-! ### The TTL cache (`cache_ttl` over the module-level `_cache` dict)

`_cache` maps string keys to `(t, v)` entries.  The Python dict is
heterogeneous; here each use site instantiates the value type `V` with the
shape actually stored under its keys.  The supplier `fn` may itself mutate
program state (the dashboard supplier re-enters `cache_ttl` on the metric
keys), so it threads an explicit state `σ`; a supplier that raises is one
returning `Except.error`.  The final `Nat` counts how many times `fn` was
invoked during the call (the code calls it at most once). -/

structure Entry (V : Type) where
  t : ℚ
  v : V
  deriving DecidableEq, Repr

/-- Cache state for value shape `V`: the slice of `_cache` holding the keys
that store values of that shape. -/
def CacheMap (V : Type) : Type := String → Option (Entry V)

/-- The empty cache (process start). -/
def emptyCache (V : Type) : CacheMap V := fun _ => none

/-- The store `_cache[key] = dict(t=now, v=v)`: replace the entry under
`key`, leave every other key untouched. -/
def cacheUpdate {V : Type} (cache : CacheMap V) (key : String) (now : ℚ)
    (v : V) : CacheMap V :=
  fun k => if k = key then some ⟨now, v⟩ else cache k

/-- Shallow embedding of `cache_ttl(key, ttl, fn)` from `app.py`:
if an entry exists for `key` and `now - entry["t"] < ttl` return its value
without invoking `fn`; otherwise invoke `fn` once and, on success, store the
result under `key` with timestamp `now` (the `now` read at entry) and
return it; if `fn` raises, the error propagates and the cache is not
written. -/
def cache_ttl {V E σ : Type} (cache : CacheMap V) (now : ℚ) (key : String)
    (ttl : ℚ) (fn : σ → Except E V × σ) (s : σ) :
    Except E V × CacheMap V × σ × Nat :=
  let run := fun (_ : Unit) =>
    match fn s with
    | (Except.ok v, s') => (Except.ok v, cacheUpdate cache key now v, s', 1)
    | (Except.error e, s') => (Except.error e, cache, s', 1)
  match cache key with
  | some e => if now - e.t < ttl then (Except.ok e.v, cache, s, 0) else run ()
  | none => run ()

/-! ### Python `int()` on strings

`top_customers` runs `limit = int(request.args.get("limit", 20))` before its
`try` block.  `parsePyInt` embeds CPython's `int(str)`: optional surrounding
whitespace, an optional sign, then decimal digits with single underscores
allowed between digits; anything else raises `ValueError` (here: `none`). -/

def isPyWs (c : Char) : Bool :=
  c = ' ' || c = '\t' || c = '\n' || c = '\x0d' || c = '\x0b' || c = '\x0c'

/-- Strip leading and trailing whitespace, as `int()` does. -/
def pyStrip (cs : List Char) : List Char :=
  ((cs.dropWhile isPyWs).reverse.dropWhile isPyWs).reverse

/-- Decimal digits with single underscores allowed between digits.  The
accumulator is `none` until the first digit has been seen; the result is
`none` when the digit run is empty or malformed. -/
def pyDigits : List Char → Option Nat → Option Nat
  | [], acc => acc
  | '_' :: c :: rest, some acc =>
      if c.isDigit then pyDigits rest (some (acc * 10 + (c.toNat - 48))) else none
  | c :: rest, acc =>
      if c.isDigit then pyDigits rest (some (acc.getD 0 * 10 + (c.toNat - 48))) else none

/-- Embedding of Python `int(s)` for a string argument (ASCII digits). -/
def parsePyInt (s : String) : Option Int :=
  match pyStrip s.data with
  | '+' :: rest => (pyDigits rest none).map (fun n => (n : Int))
  | '-' :: rest => (pyDigits rest none).map (fun n => -(n : Int))
  | cs => (pyDigits cs none).map (fun n => (n : Int))

/-! ### Generated SQL for `compute_top_customers`

The f-string of `compute_top_customers` interpolates `MYSQL_SCHEMA`,
`WINDOW_FILTER` and the raw `limit` value into the statement text.  Only
this statement depends on a request parameter, so it is the one whose text
we reproduce (apostrophes written with the `\x27` escape). -/

/-- The 12-month window filter `WINDOW_FILTER` from `app.py`. -/
def WINDOW_FILTER : String :=
  "o.orderdate >= date_add(\x27month\x27, -12, current_date)"

/-- Text of the `top_customers` statement up to the interpolated limit. -/
def top_customers_sql_pre : String :=
  "\n        SELECT c.name AS customer_name,\n               v.segment,\n               COUNT(o.orderkey)            AS orders,\n               ROUND(SUM(o.totalprice), 2)  AS revenue\n        FROM tpch.tiny.customer c\n        JOIN tpch.tiny.orders   o ON o.custkey = c.custkey\n        JOIN mysql." ++ MYSQL_SCHEMA ++ ".vip_customers v ON v.custkey = c.custkey\n        WHERE " ++ WINDOW_FILTER ++ "\n        GROUP BY c.name, v.segment\n        ORDER BY revenue DESC\n        LIMIT "

/-- Text of the `top_customers` statement after the interpolated limit. -/
def top_customers_sql_post : String := "\n        "

/-- The SQL text built by `compute_top_customers` for a given `limit`: the
`limit` value is rendered with `str()` and spliced between the fixed
prefix and suffix, with no sanitization or clamping. -/
def top_customers_sql (limit : Int) : String :=
  top_customers_sql_pre ++ toString limit ++ top_customers_sql_post

/-! ### Monthly time-series shaping (`compute_monthly_revenue_by_segment`)

Lines 185-191 of `app.py` shape rows `(m, segment, revenue)` into
`{"labels": months, "datasets": [...]}`.  A dataset dict
`{"label": seg, "data": [...]}` is modelled as a pair `(seg, data)`. -/

structure MonthlyData where
  labels : List String
  datasets : List (String × List ℚ)
  deriving DecidableEq, Repr

/-- The month bucket of a row: `str(r[0])[:7]`, the `YYYY-MM` prefix. -/
def monthKey (r : String × String × ℚ) : String := r.1.take 7

/-- Embedding of `sorted({str(r[0])[:7] for r in rows})`: the ascending
sorted list of the distinct elements. -/
def sortedDistinct (l : List String) : List String :=
  List.insertionSort (· ≤ ·) l.dedup

/-- Distinct elements of a list in order of first occurrence: the key order
of a Python dict written in list order (`by_seg` is a `defaultdict`, whose
keys appear in first-write order). -/
def firstDedup {α : Type} [DecidableEq α] : List α → List α
  | [] => []
  | a :: l => a :: firstDedup (l.filter (fun b => b ≠ a))
termination_by l => l.length
decreasing_by
  simp only [List.length_cons]
  exact Nat.lt_succ_of_le (List.length_filter_le _ _)

/-- Value of `by_seg[seg][m]` after the fill loop: the revenue of the last
row of `rows` whose month bucket is `m` and whose segment is `seg`, or the
`0.0` default when no row matches. -/
def monthly_lookup (rows : List (String × String × ℚ)) (seg m : String) : ℚ :=
  match rows.reverse.find? (fun r => monthKey r == m && r.2.1 == seg) with
  | some r => r.2.2
  | none => 0

/-- Embedding of the shaping step of `compute_monthly_revenue_by_segment`:
labels are the sorted distinct month buckets; one dataset per segment in
first-occurrence order, each carrying one value per label. -/
def monthly_shape (rows : List (String × String × ℚ)) : MonthlyData :=
  let months := sortedDistinct (rows.map monthKey)
  let segs := firstDedup (rows.map (fun r => r.2.1))
  ⟨months, segs.map (fun seg => (seg, months.map (fun m => monthly_lookup rows seg m)))⟩

/-! ### Metric result shapes -/

structure KpisData where
  total_revenue : ℚ
  total_orders : Int
  avg_order_value : ℚ
  top_segment : String
  deriving DecidableEq, Repr

/-- The `labels`/`values` payload of the segment endpoints with numeric
values (`revenue_by_segment`, `avg_order_value_by_segment`). -/
structure LabVals where
  labels : List String
  values : List ℚ
  deriving DecidableEq, Repr

/-- The `labels`/`values` payload of `orders_count_by_segment` (`int` values). -/
structure LabValsInt where
  labels : List String
  values : List Int
  deriving DecidableEq, Repr

/-- One row of the `top_customers` payload. -/
structure TopRow where
  customer_name : String
  segment : String
  orders : Int
  revenue : ℚ
  deriving DecidableEq, Repr

/-- The aggregate built by the `dashboard` supplier lambda, field order as
in the Python dict literal. -/
structure DashData where
  kpis : KpisData
  revenue_by_segment : LabVals
  avg_order_value_by_segment : LabVals
  orders_count_by_segment : LabValsInt
  monthly_revenue_by_segment : MonthlyData
  deriving DecidableEq, Repr

/-- Errors raised below the route handlers: a Trino/transport error from
`run_query` (re-raised after logging), or the `IndexError` of
`run_query(sql)[0]` on an empty result in `compute_kpis`. -/
inductive Err where
  | trino (name : String)
  | pyIndex
  deriving DecidableEq, Repr

/-- One point-in-time behaviour of the opaque query engine: the outcome of
each generated statement.  Rows are modelled as already well-typed tuples
(the code applies `float`/`int`/identity to the cells).  Only the
`top_customers` family depends on a parameter, so its field is keyed by the
generated SQL text. -/
structure World where
  kpisRows : Except Err (List (ℚ × Int × ℚ × String))
  revenueRows : Except Err (List (String × ℚ))
  aovRows : Except Err (List (String × ℚ))
  ordersRows : Except Err (List (String × Int))
  monthlyRows : Except Err (List (String × String × ℚ))
  topRows : String → Except Err (List (String × String × Int × ℚ))

/-- The mutable process state: the `_cache` dict, partitioned by the value
shape stored under each key (the key sets of the slices are disjoint:
`"kpis"`; `"revenue_by_segment"`/`"avg_order_value_by_segment"`;
`"orders_count_by_segment"`; `"monthly_revenue_by_segment"`;
`"top_customers_<limit>"`; `"dashboard"`), plus a ghost counter of
metric-computation invocations used to state the call-count claims. -/
structure St where
  cKpis : CacheMap KpisData
  cLab : CacheMap LabVals
  cOrders : CacheMap LabValsInt
  cMonthly : CacheMap MonthlyData
  cTop : CacheMap (List TopRow)
  cDash : CacheMap DashData
  calls : Nat

/-- Process-start state: empty cache, no computation invoked yet. -/
def St0 : St :=
  ⟨emptyCache _, emptyCache _, emptyCache _, emptyCache _, emptyCache _,
   emptyCache _, 0⟩

/-! ### Metric computations (`compute_*` of `app.py`)

Each `compute_X` increments the ghost `calls` counter on entry and runs its
`_do` supplier through `cache_ttl` under its key.  The `_do` suppliers only
run queries and shape rows; they do not touch the cache, so they thread the
trivial state `Unit`. -/

def kpis_do (w : World) : Except Err KpisData :=
  match w.kpisRows with
  | Except.error e => Except.error e
  | Except.ok [] => Except.error Err.pyIndex
  | Except.ok (r :: _) => Except.ok ⟨r.1, r.2.1, r.2.2.1, r.2.2.2⟩

def compute_kpis (w : World) (now : ℚ) (st : St) : Except Err KpisData × St :=
  let r := cache_ttl st.cKpis now "kpis" SMALL_CACHE_TTL
    (fun (u : Unit) => (kpis_do w, u)) ()
  (r.1, { st with cKpis := r.2.1, calls := st.calls + 1 })

def revenue_by_segment_do (w : World) : Except Err LabVals :=
  w.revenueRows.map (fun rows => ⟨rows.map Prod.fst, rows.map Prod.snd⟩)

def compute_revenue_by_segment (w : World) (now : ℚ) (st : St) :
    Except Err LabVals × St :=
  let r := cache_ttl st.cLab now "revenue_by_segment" SMALL_CACHE_TTL
    (fun (u : Unit) => (revenue_by_segment_do w, u)) ()
  (r.1, { st with cLab := r.2.1, calls := st.calls + 1 })

def avg_order_value_by_segment_do (w : World) : Except Err LabVals :=
  w.aovRows.map (fun rows => ⟨rows.map Prod.fst, rows.map Prod.snd⟩)

def compute_avg_order_value_by_segment (w : World) (now : ℚ) (st : St) :
    Except Err LabVals × St :=
  let r := cache_ttl st.cLab now "avg_order_value_by_segment" SMALL_CACHE_TTL
    (fun (u : Unit) => (avg_order_value_by_segment_do w, u)) ()
  (r.1, { st with cLab := r.2.1, calls := st.calls + 1 })

def orders_count_by_segment_do (w : World) : Except Err LabValsInt :=
  w.ordersRows.map (fun rows => ⟨rows.map Prod.fst, rows.map Prod.snd⟩)

def compute_orders_count_by_segment (w : World) (now : ℚ) (st : St) :
    Except Err LabValsInt × St :=
  let r := cache_ttl st.cOrders now "orders_count_by_segment" SMALL_CACHE_TTL
    (fun (u : Unit) => (orders_count_by_segment_do w, u)) ()
  (r.1, { st with cOrders := r.2.1, calls := st.calls + 1 })

def monthly_revenue_by_segment_do (w : World) : Except Err MonthlyData :=
  w.monthlyRows.map monthly_shape

def compute_monthly_revenue_by_segment (w : World) (now : ℚ) (st : St) :
    Except Err MonthlyData × St :=
  let r := cache_ttl st.cMonthly now "monthly_revenue_by_segment" SMALL_CACHE_TTL
    (fun (u : Unit) => (monthly_revenue_by_segment_do w, u)) ()
  (r.1, { st with cMonthly := r.2.1, calls := st.calls + 1 })

def top_customers_do (w : World) (limit : Int) : Except Err (List TopRow) :=
  (w.topRows (top_customers_sql limit)).map
    (fun rows => rows.map (fun r => ⟨r.1, r.2.1, r.2.2.1, r.2.2.2⟩))

def compute_top_customers (w : World) (now : ℚ) (limit : Int) (st : St) :
    Except Err (List TopRow) × St :=
  let key := "top_customers_" ++ toString limit
  let r := cache_ttl st.cTop now key SMALL_CACHE_TTL
    (fun (u : Unit) => (top_customers_do w limit, u)) ()
  (r.1, { st with cTop := r.2.1, calls := st.calls + 1 })

/-! ### Route handlers

Each handler is a function of the engine behaviour `w`, the request time
`now` (Python reads `time.time()` inside each `cache_ttl` call; within one
request the model uses a single instant) and the cache state, returning the
HTTP status, the response payload and the new state.  A `try/except`
around the body maps internal failures to the documented degraded `200`
response. -/

/-- Handler body of `GET /api/revenue_by_segment`: on any exception from
the computation, respond `200` with the neutral empty payload. -/
def revenue_by_segment_route (w : World) (now : ℚ) (st : St) :
    (Nat × LabVals) × St :=
  match compute_revenue_by_segment w now st with
  | (Except.ok p, st') => ((200, p), st')
  | (Except.error _, st') => ((200, ⟨[], []⟩), st')

/-- Handler body of `GET /api/revenue_share_by_segment`: the Python handler
is `return revenue_by_segment()` — it delegates to the other handler. -/
def revenue_share_by_segment_route (w : World) (now : ℚ) (st : St) :
    (Nat × LabVals) × St :=
  revenue_by_segment_route w now st

/-- Payload of `GET /api/dashboard`: either the aggregate or the error
object `{"error": s}` produced by `jsonify({"error": "trino_busy"})`. -/
inductive DashPayload where
  | data (d : DashData)
  | err (s : String)
  deriving DecidableEq, Repr

/-- The supplier lambda passed to `cache_ttl("dashboard", ...)`: evaluates
the five metric computations in the order of the dict literal, threading
the cache state; the first exception propagates (keeping the cache updates
of the computations that already ran). -/
def dashboard_supplier (w : World) (now : ℚ) (st : St) :
    Except Err DashData × St :=
  match compute_kpis w now st with
  | (Except.error e, st1) => (Except.error e, st1)
  | (Except.ok k, st1) =>
    match compute_revenue_by_segment w now st1 with
    | (Except.error e, st2) => (Except.error e, st2)
    | (Except.ok rv, st2) =>
      match compute_avg_order_value_by_segment w now st2 with
      | (Except.error e, st3) => (Except.error e, st3)
      | (Except.ok av, st3) =>
        match compute_orders_count_by_segment w now st3 with
        | (Except.error e, st4) => (Except.error e, st4)
        | (Except.ok oc, st4) =>
          match compute_monthly_revenue_by_segment w now st4 with
          | (Except.error e, st5) => (Except.error e, st5)
          | (Except.ok mo, st5) => (Except.ok ⟨k, rv, av, oc, mo⟩, st5)

/-- The `cache_ttl("dashboard", DASHBOARD_CACHE_TTL, ...)` call of the
`dashboard` handler. -/
def dashboard_core (w : World) (now : ℚ) (st : St) :
    Except Err DashData × CacheMap DashData × St × Nat :=
  cache_ttl st.cDash now "dashboard" DASHBOARD_CACHE_TTL
    (dashboard_supplier w now) st

/-- Handler body of `GET /api/dashboard`: on success respond `200` with the
aggregate; on any exception respond `200` with `{"error": "trino_busy"}`. -/
def dashboard_route (w : World) (now : ℚ) (st : St) :
    (Nat × DashPayload) × St :=
  match dashboard_core w now st with
  | (Except.ok d, cD, st', _) => ((200, DashPayload.data d), { st' with cDash := cD })
  | (Except.error _, cD, st', _) =>
      ((200, DashPayload.err "trino_busy"), { st' with cDash := cD })

/-- Unhandled Python exceptions escaping a route handler (Flask then
produces a 500, not a handler-built JSON response). -/
inductive PyErr where
  | valueError
  deriving DecidableEq, Repr

/-- The `{"rows": [...]}` payload of `GET /api/top_customers`. -/
structure TopPayload where
  rows : List TopRow
  deriving DecidableEq, Repr

/-- The `try` block of the `top_customers` handler. -/
def top_customers_body (w : World) (now : ℚ) (limit : Int) (st : St) :
    (Nat × TopPayload) × St :=
  match compute_top_customers w now limit st with
  | (Except.ok rows, st') => ((200, ⟨rows⟩), st')
  | (Except.error _, st') => ((200, ⟨[]⟩), st')

/-- Handler body of `GET /api/top_customers`: `int(request.args.get("limit",
20))` runs before the `try` block, so a present-but-unparsable `limit`
raises `ValueError` out of the handler; otherwise the parsed value is
passed to `compute_top_customers` unchanged. -/
def top_customers_route (limitArg : Option String) (w : World) (now : ℚ)
    (st : St) : Except PyErr ((Nat × TopPayload) × St) :=
  match limitArg with
  | none => Except.ok (top_customers_body w now 20 st)
  | some s =>
    match parsePyInt s with
    | none => Except.error PyErr.valueError
    | some limit => Except.ok (top_customers_body w now limit st)

/-! ### Concrete worlds used as witnesses -/

/-- An engine that fails every statement (e.g. Trino unreachable). -/
def WFail : World :=
  ⟨Except.error (Err.trino "EXTERNAL"), Except.error (Err.trino "EXTERNAL"),
   Except.error (Err.trino "EXTERNAL"), Except.error (Err.trino "EXTERNAL"),
   Except.error (Err.trino "EXTERNAL"), fun _ => Except.error (Err.trino "EXTERNAL")⟩

/-! ### Basic `cache_ttl` lemmas (shared by the claim proofs) -/

/-- A fresh entry is returned as-is: no supplier invocation, no state change. -/
theorem cache_ttl_hit {V E σ : Type} (cache : CacheMap V) (now : ℚ)
    (key : String) (ttl : ℚ) (fn : σ → Except E V × σ) (s : σ) (e : Entry V)
    (he : cache key = some e) (hf : now - e.t < ttl) :
    cache_ttl cache now key ttl fn s = (Except.ok e.v, cache, s, 0) := by
  simp [cache_ttl, he, hf]

/-- On a miss with a succeeding supplier, the value is stored under the key
with the entry-time timestamp and returned; the supplier ran once. -/
theorem cache_ttl_miss_ok {V E σ : Type} (cache : CacheMap V) (now : ℚ)
    (key : String) (ttl : ℚ) (fn : σ → Except E V × σ) (s : σ) (v : V) (s' : σ)
    (hmiss : cache key = none ∨ ∃ e : Entry V, cache key = some e ∧ ¬ now - e.t < ttl)
    (hfn : fn s = (Except.ok v, s')) :
    cache_ttl cache now key ttl fn s = (Except.ok v, cacheUpdate cache key now v, s', 1) := by
  rcases hmiss with h | ⟨e, he, hs⟩
  · simp [cache_ttl, h, hfn]
  · simp [cache_ttl, he, hs, hfn]

/-- On a miss with a raising supplier, the error propagates and the cache
mapping is exactly the one before the call. -/
theorem cache_ttl_miss_error {V E σ : Type} (cache : CacheMap V) (now : ℚ)
    (key : String) (ttl : ℚ) (fn : σ → Except E V × σ) (s : σ) (err : E) (s' : σ)
    (hmiss : cache key = none ∨ ∃ e : Entry V, cache key = some e ∧ ¬ now - e.t < ttl)
    (hfn : fn s = (Except.error err, s')) :
    cache_ttl cache now key ttl fn s = (Except.error err, cache, s', 1) := by
  rcases hmiss with h | ⟨e, he, hs⟩
  · simp [cache_ttl, h, hfn]
  · simp [cache_ttl, he, hs, hfn]

/-- The stored entry is found under the key afterwards. -/
theorem cacheUpdate_self {V : Type} (cache : CacheMap V) (key : String)
    (now : ℚ) (v : V) : cacheUpdate cache key now v key = some ⟨now, v⟩ := by
  simp [cacheUpdate]

/-! ### Claim theorems -/

/-- C1: in every state reachable from process start under any interleaving
of `run_query` calls, the number of callers inside the `with _gate:`
protected section is at most the configured capacity `n`. -/
theorem gate_never_exceeds_capacity (n : Nat) (s : GateState)
    (h : GateReachable n s) : s.inside ≤ n := by
  have hsum := gate_counter_inside n s h
  omega

/-- Witness for C1: at the default capacity `TRINO_MAX_CONCURRENCY = 2`,
the state with one caller inside the section is reachable and within bound. -/
theorem gate_never_exceeds_capacity_witness :
    GateReachable TRINO_MAX_CONCURRENCY ⟨1, 1⟩ ∧
    (GateState.mk 1 1).inside ≤ TRINO_MAX_CONCURRENCY := by
  have hreach : GateReachable TRINO_MAX_CONCURRENCY ⟨1, 1⟩ :=
    GateReachable.step GateReachable.init (GateStep.acquire 1 0)
  exact ⟨hreach, gate_never_exceeds_capacity TRINO_MAX_CONCURRENCY ⟨1, 1⟩ hreach⟩

/-- C2: `cache_ttl` returns a fresh cached value without invoking the
supplier; on a missing or expired entry it invokes the supplier exactly
once, stores the returned value under the key with the entry timestamp, and
returns it; hence a second call within `ttl` of that store returns the very
same value with zero supplier invocations, whatever supplier it carries. -/
theorem cache_ttl_get_or_compute {V E σ : Type} (cache : CacheMap V)
    (now : ℚ) (key : String) (ttl : ℚ) (fn : σ → Except E V × σ) (s : σ) :
    (∀ e : Entry V, cache key = some e → now - e.t < ttl →
      cache_ttl cache now key ttl fn s = (Except.ok e.v, cache, s, 0)) ∧
    (∀ (v : V) (s' : σ),
      (cache key = none ∨ ∃ e : Entry V, cache key = some e ∧ ¬ now - e.t < ttl) →
      fn s = (Except.ok v, s') →
      (cache_ttl cache now key ttl fn s).1 = Except.ok v ∧
      (cache_ttl cache now key ttl fn s).2.1 key = some ⟨now, v⟩ ∧
      (∀ k : String, k ≠ key → (cache_ttl cache now key ttl fn s).2.1 k = cache k) ∧
      (cache_ttl cache now key ttl fn s).2.2.2 = 1) ∧
    (∀ (v : V) (s' : σ) (now' : ℚ) {σ' : Type} (fn' : σ' → Except E V × σ') (s2 : σ'),
      (cache key = none ∨ ∃ e : Entry V, cache key = some e ∧ ¬ now - e.t < ttl) →
      fn s = (Except.ok v, s') →
      now' - now < ttl →
      cache_ttl (cache_ttl cache now key ttl fn s).2.1 now' key ttl fn' s2 =
        (Except.ok v, (cache_ttl cache now key ttl fn s).2.1, s2, 0)) := by
  refine ⟨?_, ?_, ?_⟩
  · intro e he hf
    exact cache_ttl_hit cache now key ttl fn s e he hf
  · intro v s' hmiss hfn
    rw [cache_ttl_miss_ok cache now key ttl fn s v s' hmiss hfn]
    refine ⟨rfl, cacheUpdate_self cache key now v, ?_, rfl⟩
    intro k hk
    simp [cacheUpdate, hk]
  · intro v s' now' σ' fn' s2 hmiss hfn hf'
    rw [cache_ttl_miss_ok cache now key ttl fn s v s' hmiss hfn]
    exact cache_ttl_hit _ now' key ttl fn' s2 ⟨now, v⟩
      (cacheUpdate_self cache key now v) hf'

/-- Witness for C2: from the empty cache, a first call at time `0` computes
`42` through its supplier, and a second call at time `5 < ttl = 10` returns
`42` from the cache even though its supplier would now raise. -/
theorem cache_ttl_get_or_compute_witness :
    (cache_ttl (emptyCache Nat) 0 "k" 10
        (fun (u : Unit) => ((Except.ok 42 : Except Unit Nat), u)) ()).1 =
      Except.ok 42 ∧
    cache_ttl
        (cache_ttl (emptyCache Nat) 0 "k" 10
          (fun (u : Unit) => ((Except.ok 42 : Except Unit Nat), u)) ()).2.1
        5 "k" 10 (fun (u : Unit) => ((Except.error () : Except Unit Nat), u)) () =
      (Except.ok 42,
        (cache_ttl (emptyCache Nat) 0 "k" 10
          (fun (u : Unit) => ((Except.ok 42 : Except Unit Nat), u)) ()).2.1,
        (), 0) := by
  have h := cache_ttl_get_or_compute (emptyCache Nat) 0 "k" 10
    (fun (u : Unit) => ((Except.ok 42 : Except Unit Nat), u)) ()
  exact ⟨(h.2.1 42 () (Or.inl rfl) rfl).1,
    h.2.2 42 () 5 (fun (u : Unit) => ((Except.error () : Except Unit Nat), u)) ()
      (Or.inl rfl) rfl (by norm_num)⟩

/-- C9: when the supplier raises on a missing or expired entry, `cache_ttl`
propagates the error and leaves the cache mapping exactly as it was (a
pre-existing expired entry keeps its old timestamp; nothing is written). -/
theorem cache_ttl_supplier_error_keeps_cache {V E σ : Type} (cache : CacheMap V)
    (now : ℚ) (key : String) (ttl : ℚ) (fn : σ → Except E V × σ) (s : σ)
    (err : E) (s' : σ)
    (hmiss : cache key = none ∨ ∃ e : Entry V, cache key = some e ∧ ¬ now - e.t < ttl)
    (hfn : fn s = (Except.error err, s')) :
    cache_ttl cache now key ttl fn s = (Except.error err, cache, s', 1) :=
  cache_ttl_miss_error cache now key ttl fn s err s' hmiss hfn

/-- Witness for C9: an entry stored at time `0` is expired at time `10`
(ttl `10`); the raising supplier leaves exactly that entry in place. -/
theorem cache_ttl_supplier_error_keeps_cache_witness :
    ((fun k => if k = "k" then some (⟨0, 7⟩ : Entry Nat) else none) : CacheMap Nat) "k" =
        some (⟨0, 7⟩ : Entry Nat) ∧
    ¬ ((10 : ℚ) - (0 : ℚ) < 10) ∧
    cache_ttl ((fun k => if k = "k" then some (⟨0, 7⟩ : Entry Nat) else none) : CacheMap Nat)
        10 "k" 10 (fun (u : Unit) => ((Except.error () : Except Unit Nat), u)) () =
      (Except.error (),
        (fun k => if k = "k" then some (⟨0, 7⟩ : Entry Nat) else none), (), 1) := by
  refine ⟨rfl, by norm_num, ?_⟩
  exact cache_ttl_supplier_error_keeps_cache _ 10 "k" 10 _ () () ()
    (Or.inr ⟨⟨0, 7⟩, rfl, by norm_num⟩) rfl

/-- C5: `/api/revenue_by_segment` always answers HTTP 200, and on any
failure of its computation it answers the neutral payload
`labels = [], values = []` — never a 5xx. -/
theorem revenue_by_segment_never_5xx (w : World) (now : ℚ) (st : St) :
    (revenue_by_segment_route w now st).1.1 = 200 ∧
    (∀ (e : Err) (st' : St),
      compute_revenue_by_segment w now st = (Except.error e, st') →
      (revenue_by_segment_route w now st).1 = (200, ⟨[], []⟩)) := by
  constructor
  · unfold revenue_by_segment_route
    rcases hc : compute_revenue_by_segment w now st with ⟨r, st'⟩
    cases r <;> simp
  · intro e st' hc
    unfold revenue_by_segment_route
    rw [hc]

/-- Witness for C5: with the engine failing every statement and a cold
cache, the endpoint answers `200` with the neutral payload. -/
theorem revenue_by_segment_never_5xx_witness :
    compute_revenue_by_segment WFail 0 St0 =
      (Except.error (Err.trino "EXTERNAL"),
        (compute_revenue_by_segment WFail 0 St0).2) ∧
    (revenue_by_segment_route WFail 0 St0).1 = (200, ⟨[], []⟩) := by
  refine ⟨rfl, ?_⟩
  exact (revenue_by_segment_never_5xx WFail 0 St0).2 (Err.trino "EXTERNAL")
    (compute_revenue_by_segment WFail 0 St0).2 rfl

/-- C7: `/api/revenue_share_by_segment` delegates to the
`revenue_by_segment` handler, so in every engine behaviour, request time and
cache state the two endpoints produce the identical response (status,
payload and resulting state); no percentage shares are computed. -/
theorem revenue_share_is_alias (w : World) (now : ℚ) (st : St) :
    revenue_share_by_segment_route w now st = revenue_by_segment_route w now st :=
  rfl

/-- C4 counterexample: with a failing engine and a cold cache the dashboard
composition fails, and the endpoint answers `200` with
`\x7b"error": "trino_busy"\x7d` — not the claimed `\x7b"error": "busy"\x7d`. -/
theorem dashboard_error_payload_counterexample :
    (dashboard_route WFail 0 St0).1 = (200, DashPayload.err "trino_busy") ∧
    (dashboard_route WFail 0 St0).1 ≠ (200, DashPayload.err "busy") := by
  constructor
  · rfl
  · have h1 : (dashboard_route WFail 0 St0).1 = (200, DashPayload.err "trino_busy") := rfl
    rw [h1]
    decide

/-- C4 amended: on every failure during composition of the dashboard
aggregate, `/api/dashboard` answers HTTP 200 with the JSON object
`\x7b"error": "trino_busy"\x7d` rather than propagating the error. -/
theorem dashboard_failure_returns_busy (w : World) (now : ℚ) (st : St)
    (e : Err) (h : (dashboard_core w now st).1 = Except.error e) :
    (dashboard_route w now st).1 = (200, DashPayload.err "trino_busy") := by
  unfold dashboard_route
  rcases hc : dashboard_core w now st with ⟨r, cD, st', n⟩
  rw [hc] at h
  cases r with
  | ok d => exact absurd h (by simp)
  | error e' => rfl

/-- Witness for C4 amended: the failing engine with a cold cache makes the
composition fail, and the response is `200` with the `trino_busy` object. -/
theorem dashboard_failure_returns_busy_witness :
    (dashboard_core WFail 0 St0).1 = Except.error (Err.trino "EXTERNAL") ∧
    (dashboard_route WFail 0 St0).1 = (200, DashPayload.err "trino_busy") :=
  ⟨rfl, dashboard_failure_returns_busy WFail 0 St0 (Err.trino "EXTERNAL") rfl⟩

/-- C10: when the `limit` query parameter is present but not a valid
decimal integer string, the `int()` call raises before the handler's `try`
block, so the request fails with an unhandled `ValueError` and never
produces a handler-built response (in particular not the neutral
`\x7b"rows": []\x7d` with 200). -/
theorem top_customers_bad_limit_unhandled (s : String)
    (h : parsePyInt s = none) (w : World) (now : ℚ) (st : St) :
    top_customers_route (some s) w now st = Except.error PyErr.valueError ∧
    ∀ p : (Nat × TopPayload) × St, top_customers_route (some s) w now st ≠ Except.ok p := by
  have hmain : top_customers_route (some s) w now st = Except.error PyErr.valueError := by
    simp [top_customers_route, h]
  exact ⟨hmain, fun p hp => by rw [hmain] at hp; exact Except.noConfusion hp⟩

/-- Witness for C10: `limit=abc` does not parse, and the request errors out
rather than answering. -/
theorem top_customers_bad_limit_unhandled_witness :
    parsePyInt "abc" = none ∧
    top_customers_route (some "abc") WFail 0 St0 = Except.error PyErr.valueError :=
  ⟨rfl, (top_customers_bad_limit_unhandled "abc" rfl WFail 0 St0).1⟩

/-- C3 (code evidence): the handler performs no sanitization or clamping of
`limit`.  `limit=-5` parses to `-5`, which the route passes unchanged into
`compute_top_customers`, whose generated SQL splices the text `-5` directly
after `LIMIT ` — a value outside every bounded positive range.  This
contradicts the claimed clamping. -/
theorem top_customers_limit_not_sanitized :
    parsePyInt "-5" = some (-5) ∧
    (∀ (w : World) (now : ℚ) (st : St),
      top_customers_route (some "-5") w now st =
        Except.ok (top_customers_body w now (-5) st)) ∧
    top_customers_sql (-5) =
      top_customers_sql_pre ++ "-5" ++ top_customers_sql_post ∧
    ¬ (0 < (-5 : Int)) := by
  refine ⟨rfl, ?_, rfl, by norm_num⟩
  intro w now st
  rfl

/-! ### Lemmas about the monthly shaping building blocks -/

theorem mem_firstDedup {α : Type} [DecidableEq α] (a : α) (l : List α) :
    a ∈ firstDedup l ↔ a ∈ l := by
  induction l using firstDedup.induct with
  | case1 => simp [firstDedup]
  | case2 b l ih =>
    rw [firstDedup]
    simp only [List.mem_cons, ih, List.mem_filter, decide_eq_true_eq]
    constructor
    · rintro (rfl | ⟨hmem, _⟩)
      · exact Or.inl rfl
      · exact Or.inr hmem
    · rintro (rfl | hmem)
      · exact Or.inl rfl
      · by_cases hab : a = b
        · exact Or.inl hab
        · exact Or.inr ⟨hmem, hab⟩

theorem nodup_firstDedup {α : Type} [DecidableEq α] (l : List α) :
    (firstDedup l).Nodup := by
  induction l using firstDedup.induct with
  | case1 => simp [firstDedup]
  | case2 b l ih =>
    rw [firstDedup]
    refine List.nodup_cons.mpr ⟨?_, ih⟩
    intro hmem
    rw [mem_firstDedup] at hmem
    have hne := (List.mem_filter.mp hmem).2
    simp at hne

theorem sorted_sortedDistinct (l : List String) :
    (sortedDistinct l).Sorted (· ≤ ·) :=
  List.sorted_insertionSort _ _

theorem nodup_sortedDistinct (l : List String) : (sortedDistinct l).Nodup :=
  (List.perm_insertionSort _ _).nodup_iff.mpr (List.nodup_dedup l)

theorem mem_sortedDistinct (a : String) (l : List String) :
    a ∈ sortedDistinct l ↔ a ∈ l := by
  unfold sortedDistinct
  rw [List.mem_insertionSort, List.mem_dedup]

/-- When the `(month bucket, segment)` keys of the rows are pairwise
distinct (as the `GROUP BY 1, 2` of the statement guarantees), the filled
table holds each row's revenue under its own key. -/
theorem monthly_lookup_of_mem (rows : List (String × String × ℚ))
    (hkeys : (rows.map (fun r => (monthKey r, r.2.1))).Nodup)
    (r : String × String × ℚ) (hr : r ∈ rows) :
    monthly_lookup rows r.2.1 (monthKey r) = r.2.2 := by
  have hkey : ∀ x ∈ rows, monthKey x = monthKey r → x.2.1 = r.2.1 → x = r :=
    fun x hx h1 h2 => List.inj_on_of_nodup_map hkeys hx hr (by rw [h1, h2])
  unfold monthly_lookup
  rcases hfind : rows.reverse.find?
      (fun x => monthKey x == monthKey r && x.2.1 == r.2.1) with _ | x
  · rw [List.find?_eq_none] at hfind
    have hcon := hfind r (List.mem_reverse.mpr hr)
    simp at hcon
  · have hpx := List.find?_some hfind
    have hxmem := List.mem_of_find?_eq_some hfind
    rw [List.mem_reverse] at hxmem
    simp only [Bool.and_eq_true, beq_iff_eq] at hpx
    have hxr : x = r := hkey x hxmem hpx.1 hpx.2
    subst hxr
    rfl

/-- A `(month, segment)` combination with no matching row keeps the `0.0`
default it was initialised with. -/
theorem monthly_lookup_of_not_mem (rows : List (String × String × ℚ))
    (seg m : String)
    (h : ∀ r ∈ rows, ¬ (monthKey r = m ∧ r.2.1 = seg)) :
    monthly_lookup rows seg m = 0 := by
  unfold monthly_lookup
  have hnone : rows.reverse.find? (fun x => monthKey x == m && x.2.1 == seg) = none := by
    rw [List.find?_eq_none]
    intro x hx
    have hxmem := List.mem_reverse.mp hx
    simp only [Bool.and_eq_true, beq_iff_eq]
    intro hcon
    exact h x hxmem ⟨hcon.1, hcon.2⟩
  rw [hnone]

/-- Pairs of a list zipped with its own map are graph pairs of the map. -/
theorem mem_zip_map {α β : Type} (g : α → β) (l : List α) (a : α) (b : β)
    (h : (a, b) ∈ l.zip (l.map g)) : b = g a := by
  induction l with
  | nil => simp at h
  | cons x xs ih =>
    simp only [List.map_cons, List.zip_cons_cons, List.mem_cons] at h
    rcases h with h | h
    · simp only [Prod.mk.injEq] at h
      rw [h.2, h.1]
    · exact ih h

/-- C6: for rows with pairwise-distinct `(month bucket, segment)` keys (as
produced by the `GROUP BY`), the shaped output's labels are the sorted,
duplicate-free list of exactly the month buckets present in the rows; the
dataset labels are duplicate-free and every segment present in the rows has
a dataset whose data list has one entry per label in label order
(expressed by the equal length and by every aligned `(label, value)` pair),
holding the matching row's revenue where a matching `(month, segment)` row
exists and `0.0` where none does. -/
theorem monthly_shape_densifies (rows : List (String × String × ℚ))
    (hkeys : (rows.map (fun r => (monthKey r, r.2.1))).Nodup) :
    (monthly_shape rows).labels.Sorted (· ≤ ·) ∧
    (monthly_shape rows).labels.Nodup ∧
    (∀ m : String, m ∈ (monthly_shape rows).labels ↔ ∃ r ∈ rows, monthKey r = m) ∧
    ((monthly_shape rows).datasets.map Prod.fst).Nodup ∧
    (∀ seg : String, (∃ r ∈ rows, r.2.1 = seg) →
      ∃ ds ∈ (monthly_shape rows).datasets,
        ds.1 = seg ∧
        ds.2.length = (monthly_shape rows).labels.length ∧
        (∀ (m : String) (q : ℚ), (m, q) ∈ (monthly_shape rows).labels.zip ds.2 →
          (∀ r ∈ rows, monthKey r = m → r.2.1 = seg → q = r.2.2) ∧
          ((∀ r ∈ rows, ¬ (monthKey r = m ∧ r.2.1 = seg)) → q = 0))) := by
  have hlabels : (monthly_shape rows).labels = sortedDistinct (rows.map monthKey) := rfl
  have hdatasets : (monthly_shape rows).datasets =
      (firstDedup (rows.map (fun r => r.2.1))).map
        (fun seg => (seg, (sortedDistinct (rows.map monthKey)).map
          (fun m => monthly_lookup rows seg m))) := rfl
  refine ⟨?_, ?_, ?_, ?_, ?_⟩
  · rw [hlabels]; exact sorted_sortedDistinct _
  · rw [hlabels]; exact nodup_sortedDistinct _
  · intro m
    rw [hlabels, mem_sortedDistinct]
    constructor
    · intro hm
      rcases List.mem_map.mp hm with ⟨r, hr, hrm⟩
      exact ⟨r, hr, hrm⟩
    · rintro ⟨r, hr, hrm⟩
      exact List.mem_map.mpr ⟨r, hr, hrm⟩
  · rw [hdatasets, List.map_map]
    have hcomp : (Prod.fst ∘ fun seg => (seg,
        (sortedDistinct (rows.map monthKey)).map
          (fun m => monthly_lookup rows seg m))) = fun seg : String => seg := rfl
    rw [hcomp]
    simpa using nodup_firstDedup (rows.map (fun r => r.2.1))
  · rintro seg ⟨r0, hr0, hseg0⟩
    have hmem : seg ∈ firstDedup (rows.map (fun r => r.2.1)) :=
      (mem_firstDedup seg _).mpr (List.mem_map.mpr ⟨r0, hr0, hseg0⟩)
    refine ⟨(seg, (sortedDistinct (rows.map monthKey)).map
        (fun m => monthly_lookup rows seg m)), ?_, rfl, ?_, ?_⟩
    · rw [hdatasets]
      exact List.mem_map.mpr ⟨seg, hmem, rfl⟩
    · rw [hlabels, List.length_map]
    · intro m q hzip
      rw [hlabels] at hzip
      have hq : q = monthly_lookup rows seg m := mem_zip_map _ _ m q hzip
      constructor
      · intro r hr hm hseg
        rw [hq, ← hm, ← hseg]
        exact monthly_lookup_of_mem rows hkeys r hr
      · intro hnone
        rw [hq]
        exact monthly_lookup_of_not_mem rows seg m hnone

/-- The concrete input rows of the densification example. -/
def exampleRows : List (String × String × ℚ) :=
  [("2024-01", "A", 100), ("2024-02", "B", 50)]

/-- Witness for C6: the spec's example rows have distinct keys, and the
shaped output satisfies every clause of the theorem. -/
theorem monthly_shape_densifies_witness :
    ((exampleRows.map (fun r => (monthKey r, r.2.1))).Nodup) ∧
    ((monthly_shape exampleRows).labels.Sorted (· ≤ ·) ∧
    (monthly_shape exampleRows).labels.Nodup ∧
    (∀ m : String, m ∈ (monthly_shape exampleRows).labels ↔
      ∃ r ∈ exampleRows, monthKey r = m) ∧
    ((monthly_shape exampleRows).datasets.map Prod.fst).Nodup ∧
    (∀ seg : String, (∃ r ∈ exampleRows, r.2.1 = seg) →
      ∃ ds ∈ (monthly_shape exampleRows).datasets,
        ds.1 = seg ∧
        ds.2.length = (monthly_shape exampleRows).labels.length ∧
        (∀ (m : String) (q : ℚ),
          (m, q) ∈ (monthly_shape exampleRows).labels.zip ds.2 →
          (∀ r ∈ exampleRows, monthKey r = m → r.2.1 = seg → q = r.2.2) ∧
          ((∀ r ∈ exampleRows, ¬ (monthKey r = m ∧ r.2.1 = seg)) → q = 0)))) :=
  ⟨by decide, monthly_shape_densifies exampleRows (by decide)⟩

/-- C8: when the first `/api/dashboard` request at time `t0` finds no fresh
`"dashboard"` entry and its composition succeeds with aggregate `d`, then
any second request at time `t1` within the dashboard TTL of `t0` — under
any engine behaviour `w'` — returns the identical `200` payload, leaves the
whole cache state untouched, and performs zero supplier invocations (hence
invokes none of the metric computations). -/
theorem dashboard_idempotent_within_ttl (w w' : World) (t0 t1 : ℚ) (st : St)
    (d : DashData) (stS : St)
    (hmiss : st.cDash "dashboard" = none ∨
      ∃ e : Entry DashData, st.cDash "dashboard" = some e ∧
        ¬ t0 - e.t < DASHBOARD_CACHE_TTL)
    (hsup : dashboard_supplier w t0 st = (Except.ok d, stS))
    (hfresh : t1 - t0 < DASHBOARD_CACHE_TTL) :
    ∃ st1 : St,
      dashboard_route w t0 st = ((200, DashPayload.data d), st1) ∧
      dashboard_route w' t1 st1 = ((200, DashPayload.data d), st1) ∧
      (dashboard_core w' t1 st1).2.2.2 = 0 := by
  have hcore1 : dashboard_core w t0 st =
      (Except.ok d, cacheUpdate st.cDash "dashboard" t0 d, stS, 1) :=
    cache_ttl_miss_ok st.cDash t0 "dashboard" DASHBOARD_CACHE_TTL
      (dashboard_supplier w t0) st d stS hmiss hsup
  have hcore2 : dashboard_core w' t1
        { stS with cDash := cacheUpdate st.cDash "dashboard" t0 d } =
      (Except.ok d, cacheUpdate st.cDash "dashboard" t0 d,
        { stS with cDash := cacheUpdate st.cDash "dashboard" t0 d }, 0) :=
    cache_ttl_hit _ t1 "dashboard" DASHBOARD_CACHE_TTL (dashboard_supplier w' t1) _
      ⟨t0, d⟩ (cacheUpdate_self st.cDash "dashboard" t0 d) hfresh
  refine ⟨{ stS with cDash := cacheUpdate st.cDash "dashboard" t0 d }, ?_, ?_, ?_⟩
  · unfold dashboard_route
    rw [hcore1]
  · unfold dashboard_route
    rw [hcore2]
  · rw [hcore2]

/-- An engine where every statement succeeds with one small result. -/
def WOK : World :=
  ⟨Except.ok [(100, 5, 20, "A")], Except.ok [("A", 100)], Except.ok [("A", 100)],
   Except.ok [("A", 5)], Except.ok [("2024-01", "A", 100)], fun _ => Except.ok []⟩

/-- The dashboard aggregate `WOK` produces. -/
def dOK : DashData :=
  ⟨⟨100, 5, 20, "A"⟩, ⟨["A"], [100]⟩, ⟨["A"], [100]⟩, ⟨["A"], [5]⟩,
   monthly_shape [("2024-01", "A", 100)]⟩

/-- Witness for C8: cold start at time `0`, second request at time
`30 < 60 = DASHBOARD_CACHE_TTL`: same payload, unchanged state, zero
supplier invocations. -/
theorem dashboard_idempotent_within_ttl_witness :
    St0.cDash "dashboard" = none ∧ ((30 : ℚ) - 0 < DASHBOARD_CACHE_TTL) ∧
    ∃ st1 : St,
      dashboard_route WOK 0 St0 = ((200, DashPayload.data dOK), st1) ∧
      dashboard_route WOK 30 st1 = ((200, DashPayload.data dOK), st1) ∧
      (dashboard_core WOK 30 st1).2.2.2 = 0 := by
  refine ⟨rfl, by norm_num [DASHBOARD_CACHE_TTL], ?_⟩
  exact dashboard_idempotent_within_ttl WOK WOK 0 30 St0 dOK _ (Or.inl rfl) rfl
    (by norm_num [DASHBOARD_CACHE_TTL])

end TrinoApp
